import Mathlib

/-!
# Registration handshake of `main.go`

A shallow embedding of the registration service (`startAuthService`) and the
registration client (`clientRegister`) of `src/main.go`.

The libraries the program calls (JSON, nkeys, the `jwt` helpers, the NATS
connection) are capabilities: a record of functions the program is run against.
A Go call returning `(value, error)` is a function into `value × Option Error`,
`none` being the `nil` error, so that both `if err != nil` and the discarded
`_` of the source can be written as they stand. The calls that make up the
steps of the protocol (parsing, key resolution, the cipher, claim encoding,
publication, the bus, the log lines) are recorded, in program order, in the
trace of the run.
-/

namespace NatsAuth

/-! ## Data model -/

/-- A Go `error` value that is not nil, by its message. -/
abbrev Error := String

/-- A Go `[]byte`. Go strings and byte slices hold the same sequence and the
conversions `string(b)` and `[]byte(s)` keep it, so both are one type here. -/
abbrev Bytes := String

/-- An `nkeys.KeyPair` interface value over key objects `κ`; `none` is nil. -/
abbrev KeyPair (κ : Type) := Option κ

/-- The request body, `RegistrationRequest` (main.go 28-31). -/
structure RegistrationRequest where
  ClientPubKey : String
  Payload : Bytes
deriving DecidableEq, Repr

/-- The response body, `RegistrationResponse` (main.go 33-35). -/
structure RegistrationResponse where
  Encrypted : Bytes
deriving DecidableEq, Repr

/-- The `jwt.Limits` literal of main.go 83-87. -/
structure Limits where
  Subs : Int
  Data : Int
  Payload : Int
deriving DecidableEq, Repr

/-- The `Limits` member of a user claim, of which the handler sets `Src`. -/
structure UserLimits where
  Src : Limits
deriving DecidableEq, Repr

/-- The fields of `jwt.UserClaims` the handler reads or writes. -/
structure UserClaims where
  Subject : String
  Issuer : String
  Name : String
  Tags : List String
  Limits : UserLimits
deriving DecidableEq, Repr

/-- The `jwt.PublishOptions` literal of main.go 97-102. -/
structure PublishOptions (κ ν : Type) where
  JWT : String
  ClaimsID : String
  IssuerKey : KeyPair κ
  NATSClient : ν
deriving DecidableEq, Repr

/-- A `nats.Msg`, by its `Data`. -/
structure Msg where
  Data : Bytes
deriving DecidableEq, Repr

/-- A `nats.Subscription`, by its `Subject`. -/
structure Subscription where
  Subject : String
deriving DecidableEq, Repr

/-- The libraries the program is run against. `κ` are the key objects behind an
`nkeys.KeyPair`, `ν` the NATS connections. -/
structure Caps (κ ν : Type) where
  /-- `json.Unmarshal(data, &regReq)`: the filled request and the error. -/
  unmarshalRequest : Bytes → RegistrationRequest × Option Error
  /-- `json.Marshal(req)` of a request. -/
  marshalRequest : RegistrationRequest → Bytes × Option Error
  /-- `json.Unmarshal(data, &regResp)`. -/
  unmarshalResponse : Bytes → RegistrationResponse × Option Error
  /-- `json.Marshal(resp)` of a response. -/
  marshalResponse : RegistrationResponse → Bytes × Option Error
  /-- `nkeys.FromPublicKey`. -/
  fromPublicKey : String → KeyPair κ × Option Error
  /-- `nkeys.FromSeed`. -/
  fromSeed : Bytes → KeyPair κ × Option Error
  /-- `kp.PublicKey()` on a key object. -/
  publicKey : κ → String × Option Error
  /-- `jwt.Decrypt(first, second, data)`. -/
  decrypt : KeyPair κ → KeyPair κ → Bytes → Bytes × Option Error
  /-- `jwt.Encrypt(first, second, data)`. -/
  encrypt : KeyPair κ → KeyPair κ → Bytes → Bytes × Option Error
  /-- `jwt.NewUserClaims(subject)`. -/
  newUserClaims : String → UserClaims
  /-- `claim.Encode(kp)`. -/
  encode : UserClaims → KeyPair κ → String × Option Error
  /-- `jwt.Publish(&opts)`. -/
  publish : PublishOptions κ ν → Option Error
  /-- `os.Getenv`; the empty string for a variable that is not set. -/
  getenv : String → String

/-- One recorded call, with its arguments and what it returned. -/
inductive Event (κ ν : Type) where
  | unmarshalRequest (data : Bytes) (err : Option Error)
  | fromPublicKey (pub : String) (err : Option Error)
  | decrypt (first second : KeyPair κ) (data : Bytes) (out : Bytes) (err : Option Error)
  | fromSeed (seed : Bytes) (err : Option Error)
  | encode (claim : UserClaims) (kp : KeyPair κ) (token : String) (err : Option Error)
  | publish (opts : PublishOptions κ ν) (err : Option Error)
  | encrypt (first second : KeyPair κ) (data : Bytes) (out : Bytes) (err : Option Error)
  | respond (body : Bytes)
  | request (subject : String) (data : Bytes) (timeout : Int) (err : Option Error)
  | subscribeSync (subject : String) (err : Option Error)
  | publishRequest (subject reply : String) (data : Bytes) (err : Option Error)
  | nextMsg (subject : String) (timeout : Int) (err : Option Error)
  | log (msg : String)
deriving DecidableEq, Repr

/-- How a run ends: the function returns, the goroutine panics on a nil
dereference, or `log.Fatalf` prints the message and exits the process. -/
inductive Outcome where
  | returned
  | panicked
  | fatal (msg : String)
deriving DecidableEq, Repr

/-- A run of the handler: the calls it made, in order, and how it ended. -/
structure Run (κ ν : Type) where
  trace : List (Event κ ν)
  outcome : Outcome
deriving DecidableEq, Repr

/-! ## Formatting -/

/-- The character of a decimal digit. -/
def digitChar (d : Nat) : Char := Char.ofNat (48 + d % 10)

/-- The decimal digits of a natural number, most significant first; `[0]` for zero. -/
def decimal (n : Nat) : List Nat :=
  if n = 0 then [0] else (Nat.digits 10 n).reverse

/-- The verb `%d` on a natural number: the characters of its decimal digits. -/
def formatNat (n : Nat) : String := String.mk ((decimal n).map digitChar)

/-- The verb `%d` on an `int64`: a minus sign before the digits of a negative one. -/
def formatInt : Int → String
  | Int.ofNat n => formatNat n
  | Int.negSucc n => "-" ++ formatNat (n + 1)

/-- The claim name, `fmt.Sprintf("client-%d", now.UnixNano())` (main.go 81). -/
def claimName (unixNano : Int) : String := "client-" ++ formatInt unixNano

/-! ## The registration service -/

/-- The claim of main.go 79-87, for the subject, the issuer's public key and
the value of `now.UnixNano()`. -/
def mintUserClaim (caps : Caps κ ν) (clientPubKey accPub : String) (unixNano : Int) :
    UserClaims :=
  let userClaim := caps.newUserClaims clientPubKey
  let userClaim := { userClaim with Issuer := accPub }
  let userClaim := { userClaim with Name := claimName unixNano }
  let userClaim := { userClaim with Tags := ["registered"] }
  { userClaim with
    Limits := { userClaim.Limits with Src := { Subs := -1, Data := -1, Payload := -1 } } }

/-- The endpoint handler of `startAuthService` (main.go 54-117) on the request
body `data`, `unixNano` being what `time.Now().UnixNano()` gives in this run. -/
def registrationHandler (caps : Caps κ ν) (nc : ν) (serverKP operatorKP : KeyPair κ)
    (unixNano : Int) (data : Bytes) : Run κ ν :=
  match caps.unmarshalRequest data with
  | (_, some err) =>
    { trace := [.unmarshalRequest data (some err), .log ("Invalid request payload: " ++ err)],
      outcome := .returned }
  | (regReq, none) =>
  let t1 : List (Event κ ν) := [.unmarshalRequest data none]
  match caps.fromPublicKey regReq.ClientPubKey with
  | (_, some err) =>
    { trace := t1 ++ [.fromPublicKey regReq.ClientPubKey (some err),
        .log ("Invalid client pubkey: " ++ err)],
      outcome := .returned }
  | (clientKP, none) =>
  let t2 := t1 ++ [.fromPublicKey regReq.ClientPubKey none]
  match caps.decrypt serverKP clientKP regReq.Payload with
  | (msg, some err) =>
    { trace := t2 ++ [.decrypt serverKP clientKP regReq.Payload msg (some err),
        .log ("Failed to decrypt registration payload: " ++ err)],
      outcome := .returned }
  | (msg, none) =>
  let t3 := t2 ++ [.decrypt serverKP clientKP regReq.Payload msg none,
    .log ("Decrypted registration data: " ++ msg)]
  let seed := caps.getenv "COMM_ACC_SEED"
  let commAcc := caps.fromSeed seed
  let t4 := t3 ++ [.fromSeed seed commAcc.2]
  match commAcc.1 with
  | none => { trace := t4, outcome := .panicked }
  | some acc =>
  let commAccKP : KeyPair κ := some acc
  let accPub := (caps.publicKey acc).1
  let userClaim := mintUserClaim caps regReq.ClientPubKey accPub unixNano
  match caps.encode userClaim commAccKP with
  | (userJWT, some err) =>
    { trace := t4 ++ [.encode userClaim commAccKP userJWT (some err),
        .log ("Error encoding JWT: " ++ err)],
      outcome := .returned }
  | (userJWT, none) =>
  let t5 := t4 ++ [.encode userClaim commAccKP userJWT none]
  match operatorKP with
  | none => { trace := t5, outcome := .panicked }
  | some _ =>
  let opts : PublishOptions κ ν :=
    { JWT := userJWT, ClaimsID := regReq.ClientPubKey, IssuerKey := operatorKP,
      NATSClient := nc }
  match caps.publish opts with
  | some err =>
    { trace := t5 ++ [.publish opts (some err),
        .log ("Failed to push JWT to resolver: " ++ err)],
      outcome := .returned }
  | none =>
  let t6 := t5 ++ [.publish opts none]
  match caps.encrypt clientKP serverKP userJWT with
  | (encResp, some err) =>
    { trace := t6 ++ [.encrypt clientKP serverKP userJWT encResp (some err),
        .log ("Encryption failed: " ++ err)],
      outcome := .returned }
  | (encResp, none) =>
  let t7 := t6 ++ [.encrypt clientKP serverKP userJWT encResp none]
  let resp : RegistrationResponse := { Encrypted := encResp }
  let respBytes := (caps.marshalResponse resp).1
  { trace := t7 ++ [.respond respBytes], outcome := .returned }

/-- What `startAuthService` sets up before it blocks in `svc.Run()`: the public
key it logs, the endpoint handler and the reply of the `auth.pubkey` responder. -/
structure Service (κ ν : Type) where
  serverPub : String
  endpoint : Int → Bytes → Run κ ν
  pubkeyReply : Bytes

/-- The body of `startAuthService` (main.go 49-126); `none` when `serverKP` is nil
and line 50 panics. -/
def startAuthService (caps : Caps κ ν) (nc : ν) (serverKP operatorKP : KeyPair κ) :
    Option (Service κ ν) :=
  match serverKP with
  | none => none
  | some sk =>
    let serverPub := (caps.publicKey sk).1
    some { serverPub := serverPub
           endpoint := registrationHandler caps nc serverKP operatorKP
           pubkeyReply := serverPub }

/-! ## The registration client -/

/-- The operations of the NATS connection the client uses, over the states `σ`
of the bus. A nil `*nats.Msg` or `*nats.Subscription` is `none`. -/
structure Bus (σ : Type) where
  /-- `nc.Request(subject, data, timeout)`. -/
  request : σ → String → Bytes → Int → σ × (Option Msg × Option Error)
  /-- `nats.NewInbox()`. -/
  newInbox : σ → σ × String
  /-- `nc.SubscribeSync(subject)`. -/
  subscribeSync : σ → String → σ × (Option Subscription × Option Error)
  /-- `nc.PublishRequest(subject, reply, data)`. -/
  publishRequest : σ → String → String → Bytes → σ × Option Error
  /-- `sub.NextMsg(timeout)`. -/
  nextMsg : σ → Subscription → Int → σ × (Option Msg × Option Error)

/-- A run of the client: its calls, how it ended, and the bus it leaves. -/
structure ClientRun (κ ν σ : Type) where
  trace : List (Event κ ν)
  outcome : Outcome
  bus : σ

/-- The value of `time.Second`, in nanoseconds. -/
def second : Int := 1000000000

/-- The plaintext the client registers with (main.go 141). -/
def registrationPayload : Bytes := "my_secret_registration_data"

/-- The function `clientRegister` (main.go 131-169) on the bus in state `s0`. -/
def clientRegister (caps : Caps κ ν) (bus : Bus σ) (s0 : σ) (clientKP : KeyPair κ) :
    ClientRun κ ν σ :=
  match clientKP with
  | none => { trace := [], outcome := .panicked, bus := s0 }
  | some ck =>
  let clientPub := (caps.publicKey ck).1
  match bus.request s0 "auth.pubkey" "" second with
  | (s1, (_, some err)) =>
    { trace := [.request "auth.pubkey" "" second (some err)],
      outcome := .fatal ("Failed to get server pubkey: " ++ err), bus := s1 }
  | (s1, (none, none)) =>
    { trace := [.request "auth.pubkey" "" second none], outcome := .panicked, bus := s1 }
  | (s1, (some msg, none)) =>
  let t1 : List (Event κ ν) := [.request "auth.pubkey" "" second none]
  let serverPubRaw := msg.Data
  let server := caps.fromPublicKey serverPubRaw
  let serverKP := server.1
  let t2 := t1 ++ [.fromPublicKey serverPubRaw server.2]
  let payload := registrationPayload
  match caps.encrypt serverKP clientKP payload with
  | (encrypted, some err) =>
    { trace := t2 ++ [.encrypt serverKP clientKP payload encrypted (some err)],
      outcome := .fatal ("Encryption failed: " ++ err), bus := s1 }
  | (encrypted, none) =>
  let t3 := t2 ++ [.encrypt serverKP clientKP payload encrypted none]
  let req : RegistrationRequest := { ClientPubKey := clientPub, Payload := encrypted }
  let reqBytes := (caps.marshalRequest req).1
  let inbox := bus.newInbox s1
  let subscribed := bus.subscribeSync inbox.1 inbox.2
  let t4 := t3 ++ [.subscribeSync inbox.2 subscribed.2.2]
  match subscribed.2.1 with
  | none => { trace := t4, outcome := .panicked, bus := subscribed.1 }
  | some sub =>
  let sent := bus.publishRequest subscribed.1 "auth.register" sub.Subject reqBytes
  let t5 := t4 ++ [.publishRequest "auth.register" sub.Subject reqBytes sent.2]
  match bus.nextMsg sent.1 sub (2 * second) with
  | (s5, (_, some err)) =>
    { trace := t5 ++ [.nextMsg sub.Subject (2 * second) (some err)],
      outcome := .fatal ("No response: " ++ err), bus := s5 }
  | (s5, (none, none)) =>
    { trace := t5 ++ [.nextMsg sub.Subject (2 * second) none], outcome := .panicked, bus := s5 }
  | (s5, (some respMsg, none)) =>
  let t6 := t5 ++ [.nextMsg sub.Subject (2 * second) none]
  let regResp := (caps.unmarshalResponse respMsg.Data).1
  match caps.decrypt clientKP serverKP regResp.Encrypted with
  | (decrypted, some err) =>
    { trace := t6 ++ [.decrypt clientKP serverKP regResp.Encrypted decrypted (some err)],
      outcome := .fatal ("Decryption failed: " ++ err), bus := s5 }
  | (decrypted, none) =>
    { trace := t6 ++ [.decrypt clientKP serverKP regResp.Encrypted decrypted none,
        .log ("Client received JWT: " ++ decrypted)],
      outcome := .returned, bus := s5 }

/-! ## Reading a trace -/

/-- The bodies of the replies sent, in order. -/
def replies : List (Event κ ν) → List Bytes
  | [] => []
  | .respond body :: es => body :: replies es
  | _ :: es => replies es

/-- The options of every call of the resolver publication, in order. -/
def publications : List (Event κ ν) → List (PublishOptions κ ν)
  | [] => []
  | .publish opts _ :: es => opts :: publications es
  | _ :: es => publications es

/-- The tokens of the publications the resolver accepted. -/
def publishedTokens : List (Event κ ν) → List String
  | [] => []
  | .publish opts none :: es => opts.JWT :: publishedTokens es
  | _ :: es => publishedTokens es

/-- Every claim handed to `Encode`, with the key that signs it. -/
def encoded : List (Event κ ν) → List (UserClaims × KeyPair κ)
  | [] => []
  | .encode claim kp _ _ :: es => (claim, kp) :: encoded es
  | _ :: es => encoded es

/-- The plaintexts of the decryptions that succeeded. -/
def decrypted : List (Event κ ν) → List Bytes
  | [] => []
  | .decrypt _ _ _ out none :: es => out :: decrypted es
  | _ :: es => decrypted es

/-- The two key arguments of every `jwt.Decrypt` call, in argument order. -/
def decryptKeys : List (Event κ ν) → List (KeyPair κ × KeyPair κ)
  | [] => []
  | .decrypt first second _ _ _ :: es => (first, second) :: decryptKeys es
  | _ :: es => decryptKeys es

/-- The two key arguments of every `jwt.Encrypt` call, in argument order. -/
def encryptKeys : List (Event κ ν) → List (KeyPair κ × KeyPair κ)
  | [] => []
  | .encrypt first second _ _ _ :: es => (first, second) :: encryptKeys es
  | _ :: es => encryptKeys es

/-- One of the six steps of the service returned an error. -/
def stepFailed : Event κ ν → Bool
  | .unmarshalRequest _ (some _) => true
  | .fromPublicKey _ (some _) => true
  | .decrypt _ _ _ _ (some _) => true
  | .encode _ _ _ (some _) => true
  | .publish _ (some _) => true
  | .encrypt _ _ _ _ (some _) => true
  | _ => false

/-- One of the four steps before the publication returned an error. -/
def issuanceFailed : Event κ ν → Bool
  | .unmarshalRequest _ (some _) => true
  | .fromPublicKey _ (some _) => true
  | .decrypt _ _ _ _ (some _) => true
  | .encode _ _ _ (some _) => true
  | _ => false

/-! ## Client and service on one bus -/

/-- The state of a bus with one service attached: what the service has done so
far and the replies not yet collected, each under its reply subject. -/
structure Wire (κ ν : Type) where
  service : List (Event κ ν)
  pending : List (String × Bytes)

/-- The bus before any message. -/
def Wire.idle : Wire κ ν := { service := [], pending := [] }

/-- The bus of the end-to-end scenario: the service started by `startAuthService`
answers `auth.pubkey` with its reply and runs its endpoint on what is sent to
`auth.register`; a reply waits under the request's reply subject until
`NextMsg` collects it, and a wait with nothing to collect times out. -/
def loopback (caps : Caps κ ν) (nc : ν) (serverKP operatorKP : KeyPair κ) (unixNano : Int) :
    Bus (Wire κ ν) where
  request := fun w subject _ _ =>
    match startAuthService caps nc serverKP operatorKP with
    | some svc =>
      if subject = "auth.pubkey" then (w, (some { Data := svc.pubkeyReply }, none))
      else (w, (none, some "nats: timeout"))
    | none => (w, (none, some "nats: timeout"))
  newInbox := fun w => (w, "_INBOX.client")
  subscribeSync := fun w subject => (w, (some { Subject := subject }, none))
  publishRequest := fun w subject reply data =>
    match startAuthService caps nc serverKP operatorKP with
    | some svc =>
      if subject = "auth.register" then
        let run := svc.endpoint unixNano data
        ({ service := w.service ++ run.trace,
           pending := w.pending ++ (replies run.trace).map (fun body => (reply, body)) }, none)
      else (w, none)
    | none => (w, none)
  nextMsg := fun w sub _ =>
    match w.pending with
    | (subject, body) :: rest =>
      if subject = sub.Subject then ({ w with pending := rest }, (some { Data := body }, none))
      else (w, (none, some "nats: timeout"))
    | [] => (w, (none, some "nats: timeout"))

/-- The run of `clientRegister` against the service on the loopback bus. -/
def endToEnd (caps : Caps κ ν) (nc : ν) (serverKP operatorKP clientKP : KeyPair κ)
    (unixNano : Int) : ClientRun κ ν (Wire κ ν) :=
  clientRegister caps (loopback caps nc serverKP operatorKP unixNano) Wire.idle clientKP

/-! ## Laws of the capabilities -/

/-- The key pair a peer obtains from the public key of `k`. -/
def publicHandle (caps : Caps κ ν) (k : κ) : KeyPair κ :=
  (caps.fromPublicKey (caps.publicKey k).1).1

/-- The round-trip law with the sender's key as first argument of `encrypt`:
`decrypt(recipientPriv, senderPub, encrypt(senderPriv, recipientPub, X)) == X`,
in its strongest reading: of every two key objects and with no condition. -/
def SenderFirstLaw (caps : Caps κ ν) : Prop :=
  ∀ (s r : κ) (X : Bytes),
    caps.decrypt (some r) (publicHandle caps s) (caps.encrypt (some s) (publicHandle caps r) X).1
      = (X, none)

/-- The round-trip law with the recipient's key as first argument of `encrypt`:
`decrypt(recipientPriv, senderPub, encrypt(recipientPub, senderPriv, X)) == X`
for every encryption that succeeds, `full` being the key objects that hold their
private half: the sender `s` and the recipient `r` are both such key pairs, and
each side has of the other the handle made of its public key only. -/
def RecipientFirstLaw (caps : Caps κ ν) (full : κ → Prop) : Prop :=
  ∀ (s r : κ), full s → full r → ∀ (X c : Bytes),
    caps.encrypt (publicHandle caps r) (some s) X = (c, none) →
    caps.decrypt (some r) (publicHandle caps s) c = (X, none)

/-- The JSON codec gives back what it was given. -/
def JsonLaw (caps : Caps κ ν) : Prop :=
  (∀ r, caps.unmarshalRequest (caps.marshalRequest r).1 = (r, none)) ∧
  (∀ r, caps.unmarshalResponse (caps.marshalResponse r).1 = (r, none))

/-! ## Deterministic stubs -/

/-- A key object of the stubs: the public key string and whether the private
half is held. -/
structure StubKey where
  name : String
  seed : Bool
deriving DecidableEq, Repr

/-- A field written so that its end can be found: a dot before every character. -/
def packField : List Char → List Char
  | [] => []
  | c :: cs => '.' :: c :: packField cs

/-- Two strings in one: the first as a field, a bar, then the second. -/
def pack (a b : String) : String := String.mk (packField a.data ++ '|' :: b.data)

/-- The inverse of `pack` on lists of characters; the flag says that the dot of
a field character has just been read. -/
def unpackChars : Bool → List Char → Option (List Char × List Char)
  | _, [] => none
  | true, c :: rest => (unpackChars false rest).map (fun p => (c :: p.1, p.2))
  | false, c :: rest => if c = '|' then some ([], rest) else unpackChars true rest

/-- The inverse of `pack`. -/
def unpack (s : String) : Option (String × String) :=
  (unpackChars false s.data).map (fun p => (String.mk p.1, String.mk p.2))

/-- Stub capabilities: a codec by `pack`, keys by name, and a sealed box that
names its recipient (first argument) and its sender (second argument); sealing
needs the private half of the sender, opening the private half of the recipient. -/
def stubCaps : Caps StubKey Unit where
  unmarshalRequest := fun data =>
    match unpack data with
    | some p => ({ ClientPubKey := p.1, Payload := p.2 }, none)
    | none => ({ ClientPubKey := "", Payload := "" }, some "unexpected end of JSON input")
  marshalRequest := fun r => (pack r.ClientPubKey r.Payload, none)
  unmarshalResponse := fun data => ({ Encrypted := data }, none)
  marshalResponse := fun r => (r.Encrypted, none)
  fromPublicKey := fun s =>
    if s = "" then (none, some "nkeys: invalid public key")
    else (some { name := s, seed := false }, none)
  fromSeed := fun s =>
    if s = "" then (none, some "nkeys: invalid encoded key")
    else (some { name := s, seed := true }, none)
  publicKey := fun k => (k.name, none)
  encrypt := fun first second data =>
    match first, second with
    | some r, some s =>
      if s.seed = true ∧ s.name ≠ "" then (pack r.name (pack s.name data), none)
      else ("", some "nkeys: no seed or private key available")
    | _, _ => ("", some "nil key pair")
  decrypt := fun first second data =>
    match first, second with
    | some r, some s =>
      match unpack data with
      | some p =>
        match unpack p.2 with
        | some q =>
          if r.seed = true ∧ p.1 = r.name ∧ q.1 = s.name then (q.2, none)
          else ("", some "nkeys: could not decrypt")
        | none => ("", some "nkeys: could not decrypt")
      | none => ("", some "nkeys: could not decrypt")
    | _, _ => ("", some "nil key pair")
  newUserClaims := fun s =>
    { Subject := s, Issuer := "", Name := "", Tags := [],
      Limits := { Src := { Subs := 0, Data := 0, Payload := 0 } } }
  encode := fun claim kp =>
    match kp with
    | some k => if k.seed then ("jwt." ++ claim.Subject, none) else ("", some "no seed")
    | none => ("", some "nil key pair")
  publish := fun opts => if opts.JWT = "" then some "empty token" else none
  getenv := fun name => if name = "COMM_ACC_SEED" then "ACOMM" else ""

/-- The name of a key pair, empty for nil. -/
def keyName : KeyPair StubKey → String
  | some k => k.name
  | none => ""

/-- Stub capabilities with an unauthenticated cipher in the order
`encrypt(sender, recipient, X)`, `decrypt(recipient, sender, Y)`: the
ciphertext is the plaintext behind the sender's name, and decryption drops as
many characters as the sender's name has. -/
def senderFirstCaps : Caps StubKey Unit :=
  { stubCaps with
    encrypt := fun first _ data => (String.mk ((keyName first).data ++ data.data), none)
    decrypt := fun _ second data =>
      (String.mk (data.data.drop (keyName second).data.length), none) }

/-- Stub capabilities in an environment where `COMM_ACC_SEED` is not set. -/
def unsetCaps : Caps StubKey Unit :=
  { stubCaps with getenv := fun _ => "" }

/-- The service key of the examples. -/
def stubServer : KeyPair StubKey := some { name := "NSERVER", seed := true }

/-- The operator key of the examples. -/
def stubOperator : KeyPair StubKey := some { name := "OOPERATOR", seed := true }

/-- The client key of the examples. -/
def stubClient : KeyPair StubKey := some { name := "UCLIENT01", seed := true }

/-- A well-formed request body of the client of the examples. -/
def stubRequest : Bytes :=
  (stubCaps.marshalRequest
    { ClientPubKey := "UCLIENT01",
      Payload := (stubCaps.encrypt (some { name := "NSERVER", seed := false }) stubClient
        registrationPayload).1 }).1

/-- A bus on which discovery is answered, the transport rejects every send and
no reply ever arrives. -/
def rejectingBus : Bus Unit where
  request := fun s _ _ _ => (s, (some { Data := "NSERVER" }, none))
  newInbox := fun s => (s, "_INBOX.client")
  subscribeSync := fun s subject => (s, (some { Subject := subject }, none))
  publishRequest := fun s _ _ _ => (s, some "nats: connection closed")
  nextMsg := fun s _ _ => (s, (none, some "nats: timeout"))

/-- A request body whose payload was tampered with. -/
def tamperedRequest : Bytes :=
  (stubCaps.marshalRequest { ClientPubKey := "UCLIENT01", Payload := "tampered" }).1

/-- A request body whose `client_pub` is not a public key. -/
def invalidKeyRequest : Bytes :=
  (stubCaps.marshalRequest { ClientPubKey := "", Payload := "payload" }).1

/-! ## Properties as the specification words them -/

/-- Re-registration as specified: two runs that reply, on requests of one client
key, never give the two claims the same name. -/
def DistinctNamesAlways (caps : Caps κ ν) (nc : ν) (serverKP operatorKP : KeyPair κ) : Prop :=
  ∀ (t1 t2 : Int) (d1 d2 : Bytes),
    (caps.unmarshalRequest d1).1.ClientPubKey = (caps.unmarshalRequest d2).1.ClientPubKey →
    replies (registrationHandler caps nc serverKP operatorKP t1 d1).trace ≠ [] →
    replies (registrationHandler caps nc serverKP operatorKP t2 d2).trace ≠ [] →
    ∀ p1 ∈ encoded (registrationHandler caps nc serverKP operatorKP t1 d1).trace,
    ∀ p2 ∈ encoded (registrationHandler caps nc serverKP operatorKP t2 d2).trace,
      p1.1.Name ≠ p2.1.Name

/-- Startup as specified: with a seed `COMM_ACC_SEED` that `FromSeed` rejects, the
service is not started, or its endpoint handles no request: it never comes to
decrypt a payload, let alone to read the seed. -/
def SeedGatesService (caps : Caps κ ν) (nc : ν) (serverKP operatorKP : KeyPair κ) : Prop :=
  (caps.fromSeed (caps.getenv "COMM_ACC_SEED")).2 ≠ none →
  ∀ svc, startAuthService caps nc serverKP operatorKP = some svc →
    ∀ (unixNano : Int) (data : Bytes),
      decrypted (svc.endpoint unixNano data).trace = [] ∧
      ∀ seed err, Event.fromSeed seed err ∉ (svc.endpoint unixNano data).trace

/-- The key pair the client makes of the discovery reply (main.go 134-139). -/
def discovered (caps : Caps κ ν) (bus : Bus σ) (s0 : σ) : KeyPair κ :=
  match (bus.request s0 "auth.pubkey" "" second).2.1 with
  | some msg => (caps.fromPublicKey msg.Data).1
  | none => none

/-- The key pair the service makes of the request's `client_pub` (main.go 61). -/
def requester (caps : Caps κ ν) (data : Bytes) : KeyPair κ :=
  (caps.fromPublicKey (caps.unmarshalRequest data).1.ClientPubKey).1

/-- Key roles as specified: every call of `Decrypt` and of `Encrypt`, in the
service and in the client, has the caller's own key pair as first argument and
the peer's public key as second. -/
def KeyRolesAsSpecified (caps : Caps κ ν) (nc : ν) (serverKP operatorKP : KeyPair κ)
    (unixNano : Int) (data : Bytes) (bus : Bus σ) (s0 : σ) (clientKP : KeyPair κ) : Prop :=
  (∀ p ∈ decryptKeys (registrationHandler caps nc serverKP operatorKP unixNano data).trace,
    p = (serverKP, requester caps data)) ∧
  (∀ p ∈ encryptKeys (registrationHandler caps nc serverKP operatorKP unixNano data).trace,
    p = (serverKP, requester caps data)) ∧
  (∀ p ∈ encryptKeys (clientRegister caps bus s0 clientKP).trace,
    p = (clientKP, discovered caps bus s0)) ∧
  (∀ p ∈ decryptKeys (clientRegister caps bus s0 clientKP).trace,
    p = (clientKP, discovered caps bus s0))

/-- What a run of the client against the service has to satisfy for the round
trip: the service decrypted the client's plaintext, and the client decrypted
the token the resolver accepted. -/
def RoundTrip (run : ClientRun κ ν (Wire κ ν)) : Prop :=
  decrypted run.bus.service = [registrationPayload] ∧
  ∃ token, publishedTokens run.bus.service = [token] ∧ decrypted run.trace = [token]

/-- The round trip as specified: it follows, on a run the client completes, from
the sender-first law of the cipher (and a faithful JSON codec). -/
def RoundTripAsSpecified (caps : Caps κ ν) (nc : ν) (serverKP operatorKP clientKP : KeyPair κ)
    (unixNano : Int) : Prop :=
  JsonLaw caps → SenderFirstLaw caps →
  (endToEnd caps nc serverKP operatorKP clientKP unixNano).outcome = .returned →
  RoundTrip (endToEnd caps nc serverKP operatorKP clientKP unixNano)


/-! ## Runs of the handler and of the client -/

/-- Case analysis on a run of the handler: a property of runs holds of the run on
`data` when it holds of each of the nine ways the handler can end. -/
theorem registrationHandler_cases {motive : Run κ ν → Prop}
    (caps : Caps κ ν) (nc : ν) (serverKP operatorKP : KeyPair κ) (unixNano : Int) (data : Bytes)
    (parseErr : ∀ regReq err, caps.unmarshalRequest data = (regReq, some err) →
      motive { trace := [.unmarshalRequest data (some err),
                 .log ("Invalid request payload: " ++ err)],
               outcome := .returned })
    (keyErr : ∀ regReq clientKP err, caps.unmarshalRequest data = (regReq, none) →
      caps.fromPublicKey regReq.ClientPubKey = (clientKP, some err) →
      motive { trace := [.unmarshalRequest data none,
                 .fromPublicKey regReq.ClientPubKey (some err),
                 .log ("Invalid client pubkey: " ++ err)],
               outcome := .returned })
    (decryptErr : ∀ regReq clientKP msg err, caps.unmarshalRequest data = (regReq, none) →
      caps.fromPublicKey regReq.ClientPubKey = (clientKP, none) →
      caps.decrypt serverKP clientKP regReq.Payload = (msg, some err) →
      motive { trace := [.unmarshalRequest data none,
                 .fromPublicKey regReq.ClientPubKey none,
                 .decrypt serverKP clientKP regReq.Payload msg (some err),
                 .log ("Failed to decrypt registration payload: " ++ err)],
               outcome := .returned })
    (seedNil : ∀ regReq clientKP msg, caps.unmarshalRequest data = (regReq, none) →
      caps.fromPublicKey regReq.ClientPubKey = (clientKP, none) →
      caps.decrypt serverKP clientKP regReq.Payload = (msg, none) →
      (caps.fromSeed (caps.getenv "COMM_ACC_SEED")).1 = none →
      motive { trace := [.unmarshalRequest data none,
                 .fromPublicKey regReq.ClientPubKey none,
                 .decrypt serverKP clientKP regReq.Payload msg none,
                 .log ("Decrypted registration data: " ++ msg),
                 .fromSeed (caps.getenv "COMM_ACC_SEED")
                   (caps.fromSeed (caps.getenv "COMM_ACC_SEED")).2],
               outcome := .panicked })
    (encodeErr : ∀ regReq clientKP msg acc userJWT err,
      caps.unmarshalRequest data = (regReq, none) →
      caps.fromPublicKey regReq.ClientPubKey = (clientKP, none) →
      caps.decrypt serverKP clientKP regReq.Payload = (msg, none) →
      (caps.fromSeed (caps.getenv "COMM_ACC_SEED")).1 = some acc →
      caps.encode (mintUserClaim caps regReq.ClientPubKey (caps.publicKey acc).1 unixNano)
        (some acc) = (userJWT, some err) →
      motive { trace := [.unmarshalRequest data none,
                 .fromPublicKey regReq.ClientPubKey none,
                 .decrypt serverKP clientKP regReq.Payload msg none,
                 .log ("Decrypted registration data: " ++ msg),
                 .fromSeed (caps.getenv "COMM_ACC_SEED")
                   (caps.fromSeed (caps.getenv "COMM_ACC_SEED")).2,
                 .encode (mintUserClaim caps regReq.ClientPubKey (caps.publicKey acc).1 unixNano)
                   (some acc) userJWT (some err),
                 .log ("Error encoding JWT: " ++ err)],
               outcome := .returned })
    (operatorNil : ∀ regReq clientKP msg acc userJWT,
      caps.unmarshalRequest data = (regReq, none) →
      caps.fromPublicKey regReq.ClientPubKey = (clientKP, none) →
      caps.decrypt serverKP clientKP regReq.Payload = (msg, none) →
      (caps.fromSeed (caps.getenv "COMM_ACC_SEED")).1 = some acc →
      caps.encode (mintUserClaim caps regReq.ClientPubKey (caps.publicKey acc).1 unixNano)
        (some acc) = (userJWT, none) →
      operatorKP = none →
      motive { trace := [.unmarshalRequest data none,
                 .fromPublicKey regReq.ClientPubKey none,
                 .decrypt serverKP clientKP regReq.Payload msg none,
                 .log ("Decrypted registration data: " ++ msg),
                 .fromSeed (caps.getenv "COMM_ACC_SEED")
                   (caps.fromSeed (caps.getenv "COMM_ACC_SEED")).2,
                 .encode (mintUserClaim caps regReq.ClientPubKey (caps.publicKey acc).1 unixNano)
                   (some acc) userJWT none],
               outcome := .panicked })
    (publishErr : ∀ regReq clientKP msg acc userJWT err,
      caps.unmarshalRequest data = (regReq, none) →
      caps.fromPublicKey regReq.ClientPubKey = (clientKP, none) →
      caps.decrypt serverKP clientKP regReq.Payload = (msg, none) →
      (caps.fromSeed (caps.getenv "COMM_ACC_SEED")).1 = some acc →
      caps.encode (mintUserClaim caps regReq.ClientPubKey (caps.publicKey acc).1 unixNano)
        (some acc) = (userJWT, none) →
      operatorKP.isSome →
      caps.publish (PublishOptions.mk userJWT regReq.ClientPubKey operatorKP nc) = some err →
      motive { trace := [.unmarshalRequest data none,
                 .fromPublicKey regReq.ClientPubKey none,
                 .decrypt serverKP clientKP regReq.Payload msg none,
                 .log ("Decrypted registration data: " ++ msg),
                 .fromSeed (caps.getenv "COMM_ACC_SEED")
                   (caps.fromSeed (caps.getenv "COMM_ACC_SEED")).2,
                 .encode (mintUserClaim caps regReq.ClientPubKey (caps.publicKey acc).1 unixNano)
                   (some acc) userJWT none,
                 .publish (PublishOptions.mk userJWT regReq.ClientPubKey operatorKP nc)
                   (some err),
                 .log ("Failed to push JWT to resolver: " ++ err)],
               outcome := .returned })
    (encryptErr : ∀ regReq clientKP msg acc userJWT encResp err,
      caps.unmarshalRequest data = (regReq, none) →
      caps.fromPublicKey regReq.ClientPubKey = (clientKP, none) →
      caps.decrypt serverKP clientKP regReq.Payload = (msg, none) →
      (caps.fromSeed (caps.getenv "COMM_ACC_SEED")).1 = some acc →
      caps.encode (mintUserClaim caps regReq.ClientPubKey (caps.publicKey acc).1 unixNano)
        (some acc) = (userJWT, none) →
      operatorKP.isSome →
      caps.publish (PublishOptions.mk userJWT regReq.ClientPubKey operatorKP nc) = none →
      caps.encrypt clientKP serverKP userJWT = (encResp, some err) →
      motive { trace := [.unmarshalRequest data none,
                 .fromPublicKey regReq.ClientPubKey none,
                 .decrypt serverKP clientKP regReq.Payload msg none,
                 .log ("Decrypted registration data: " ++ msg),
                 .fromSeed (caps.getenv "COMM_ACC_SEED")
                   (caps.fromSeed (caps.getenv "COMM_ACC_SEED")).2,
                 .encode (mintUserClaim caps regReq.ClientPubKey (caps.publicKey acc).1 unixNano)
                   (some acc) userJWT none,
                 .publish (PublishOptions.mk userJWT regReq.ClientPubKey operatorKP nc) none,
                 .encrypt clientKP serverKP userJWT encResp (some err),
                 .log ("Encryption failed: " ++ err)],
               outcome := .returned })
    (success : ∀ regReq clientKP msg acc userJWT encResp,
      caps.unmarshalRequest data = (regReq, none) →
      caps.fromPublicKey regReq.ClientPubKey = (clientKP, none) →
      caps.decrypt serverKP clientKP regReq.Payload = (msg, none) →
      (caps.fromSeed (caps.getenv "COMM_ACC_SEED")).1 = some acc →
      caps.encode (mintUserClaim caps regReq.ClientPubKey (caps.publicKey acc).1 unixNano)
        (some acc) = (userJWT, none) →
      operatorKP.isSome →
      caps.publish (PublishOptions.mk userJWT regReq.ClientPubKey operatorKP nc) = none →
      caps.encrypt clientKP serverKP userJWT = (encResp, none) →
      motive { trace := [.unmarshalRequest data none,
                 .fromPublicKey regReq.ClientPubKey none,
                 .decrypt serverKP clientKP regReq.Payload msg none,
                 .log ("Decrypted registration data: " ++ msg),
                 .fromSeed (caps.getenv "COMM_ACC_SEED")
                   (caps.fromSeed (caps.getenv "COMM_ACC_SEED")).2,
                 .encode (mintUserClaim caps regReq.ClientPubKey (caps.publicKey acc).1 unixNano)
                   (some acc) userJWT none,
                 .publish (PublishOptions.mk userJWT regReq.ClientPubKey operatorKP nc) none,
                 .encrypt clientKP serverKP userJWT encResp none,
                 .respond (caps.marshalResponse { Encrypted := encResp }).1],
               outcome := .returned }) :
    motive (registrationHandler caps nc serverKP operatorKP unixNano data) := by
  rcases h1 : caps.unmarshalRequest data with ⟨regReq, _ | e1⟩
  swap
  · simpa [registrationHandler, h1] using parseErr regReq e1 h1
  rcases h2 : caps.fromPublicKey regReq.ClientPubKey with ⟨clientKP, _ | e2⟩
  swap
  · simpa [registrationHandler, h1, h2] using keyErr regReq clientKP e2 h1 h2
  rcases h3 : caps.decrypt serverKP clientKP regReq.Payload with ⟨msg, _ | e3⟩
  swap
  · simpa [registrationHandler, h1, h2, h3] using decryptErr regReq clientKP msg e3 h1 h2 h3
  rcases h4 : (caps.fromSeed (caps.getenv "COMM_ACC_SEED")).1 with _ | acc
  · simpa [registrationHandler, h1, h2, h3, h4] using seedNil regReq clientKP msg h1 h2 h3 h4
  rcases h5 : caps.encode (mintUserClaim caps regReq.ClientPubKey (caps.publicKey acc).1 unixNano)
    (some acc) with ⟨userJWT, _ | e5⟩
  swap
  · simpa [registrationHandler, h1, h2, h3, h4, h5] using
      encodeErr regReq clientKP msg acc userJWT e5 h1 h2 h3 h4 h5
  rcases operatorKP with _ | op
  · simpa [registrationHandler, h1, h2, h3, h4, h5] using
      operatorNil regReq clientKP msg acc userJWT h1 h2 h3 h4 h5 rfl
  rcases h6 : caps.publish (PublishOptions.mk userJWT regReq.ClientPubKey (some op) nc)
    with _ | e6
  swap
  · simpa [registrationHandler, h1, h2, h3, h4, h5, h6] using
      publishErr regReq clientKP msg acc userJWT e6 h1 h2 h3 h4 h5 rfl h6
  rcases h7 : caps.encrypt clientKP serverKP userJWT with ⟨encResp, _ | e7⟩
  swap
  · simpa [registrationHandler, h1, h2, h3, h4, h5, h6, h7] using
      encryptErr regReq clientKP msg acc userJWT encResp e7 h1 h2 h3 h4 h5 rfl h6 h7
  simpa [registrationHandler, h1, h2, h3, h4, h5, h6, h7] using
    success regReq clientKP msg acc userJWT encResp h1 h2 h3 h4 h5 rfl h6 h7

/-- A list that ends in `x` and is split at an element absent before `x` is
split at its end. -/
theorem split_at_last {α : Type} {x y : α} :
    ∀ {l pre post : List α}, l ++ [x] = pre ++ y :: post → y ∉ l →
      pre = l ∧ post = [] ∧ x = y
  | [], [], post, h, _ => by simp at h; simp [h]
  | [], p :: ps, post, h, _ => by simp at h
  | a :: l, [], post, h, hy => by
      simp at h
      exact absurd (by simp [h.1]) hy
  | a :: l, p :: ps, post, h, hy => by
      simp at h
      have hy2 : y ∉ l := fun hm => hy (List.mem_cons_of_mem _ hm)
      obtain ⟨h1, h2, h3⟩ := split_at_last h.2 hy2
      simp [h.1, h1, h2, h3]

/-- A run of the handler sends no reply, or it went through every step, and then
its trace holds one decryption, one accepted publication and one reply. -/
theorem handler_reply_shape (caps : Caps κ ν) (nc : ν) (serverKP operatorKP : KeyPair κ)
    (unixNano : Int) (data : Bytes) :
    replies (registrationHandler caps nc serverKP operatorKP unixNano data).trace = [] ∨
    ∃ regReq clientKP msg userJWT encResp,
      caps.unmarshalRequest data = (regReq, none) ∧
      caps.fromPublicKey regReq.ClientPubKey = (clientKP, none) ∧
      caps.decrypt serverKP clientKP regReq.Payload = (msg, none) ∧
      caps.encrypt clientKP serverKP userJWT = (encResp, none) ∧
      decrypted (registrationHandler caps nc serverKP operatorKP unixNano data).trace = [msg] ∧
      publishedTokens (registrationHandler caps nc serverKP operatorKP unixNano data).trace
        = [userJWT] ∧
      replies (registrationHandler caps nc serverKP operatorKP unixNano data).trace
        = [(caps.marshalResponse { Encrypted := encResp }).1] := by
  apply registrationHandler_cases (motive := fun r =>
    replies r.trace = [] ∨
    ∃ regReq clientKP msg userJWT encResp,
      caps.unmarshalRequest data = (regReq, none) ∧
      caps.fromPublicKey regReq.ClientPubKey = (clientKP, none) ∧
      caps.decrypt serverKP clientKP regReq.Payload = (msg, none) ∧
      caps.encrypt clientKP serverKP userJWT = (encResp, none) ∧
      decrypted r.trace = [msg] ∧ publishedTokens r.trace = [userJWT] ∧
      replies r.trace = [(caps.marshalResponse { Encrypted := encResp }).1])
    caps nc serverKP operatorKP unixNano data
  case success =>
    intro regReq clientKP msg acc userJWT encResp h1 h2 h3 h4 h5 hop h6 h7
    exact Or.inr ⟨regReq, clientKP, msg, userJWT, encResp, h1, h2, h3, h7,
      by simp [decrypted], by simp [publishedTokens], by simp [replies]⟩
  all_goals
    intros
    simp [replies]

/-- The key arguments of the client's calls: `Encrypt` gets the discovered service
key first and the client's own key pair second, `Decrypt` the client's own key
pair first. -/
theorem client_key_order (caps : Caps κ ν) (bus : Bus σ) (s0 : σ) (clientKP : KeyPair κ) :
    (∀ p ∈ encryptKeys (clientRegister caps bus s0 clientKP).trace,
      p = (discovered caps bus s0, clientKP)) ∧
    (∀ p ∈ decryptKeys (clientRegister caps bus s0 clientKP).trace,
      p = (clientKP, discovered caps bus s0)) ∧
    ((clientRegister caps bus s0 clientKP).outcome = .returned →
      encryptKeys (clientRegister caps bus s0 clientKP).trace
        = [(discovered caps bus s0, clientKP)] ∧
      decryptKeys (clientRegister caps bus s0 clientKP).trace
        = [(clientKP, discovered caps bus s0)]) := by
  rcases clientKP with _ | ck
  · simp [clientRegister, encryptKeys, decryptKeys]
  rcases h1 : bus.request s0 "auth.pubkey" "" second with ⟨s1, _ | msg, _ | e1⟩
  · simp [clientRegister, h1, encryptKeys, decryptKeys]
  · simp [clientRegister, h1, encryptKeys, decryptKeys]
  swap
  · simp [clientRegister, h1, encryptKeys, decryptKeys]
  have hd : discovered caps bus s0 = (caps.fromPublicKey msg.Data).1 := by
    simp [discovered, h1]
  rcases h2 : caps.encrypt (caps.fromPublicKey msg.Data).1 (some ck) registrationPayload
    with ⟨encrypted, _ | e2⟩
  swap
  · simp [clientRegister, h1, h2, hd, encryptKeys, decryptKeys]
  rcases h3 : (bus.subscribeSync (bus.newInbox s1).1 (bus.newInbox s1).2).2.1 with _ | sub
  · simp [clientRegister, h1, h2, h3, hd, encryptKeys, decryptKeys]
  rcases h4 : bus.nextMsg (bus.publishRequest
      (bus.subscribeSync (bus.newInbox s1).1 (bus.newInbox s1).2).1 "auth.register" sub.Subject
      (caps.marshalRequest { ClientPubKey := (caps.publicKey ck).1, Payload := encrypted }).1).1
      sub (2 * second) with ⟨s5, _ | respMsg, _ | e4⟩
  · simp [clientRegister, h1, h2, h3, h4, hd, encryptKeys, decryptKeys]
  · simp [clientRegister, h1, h2, h3, h4, hd, encryptKeys, decryptKeys]
  swap
  · simp [clientRegister, h1, h2, h3, h4, hd, encryptKeys, decryptKeys]
  rcases h5 : caps.decrypt (some ck) (caps.fromPublicKey msg.Data).1
    (caps.unmarshalResponse respMsg.Data).1.Encrypted with ⟨out, _ | e5⟩
  · simp [clientRegister, h1, h2, h3, h4, h5, hd, encryptKeys, decryptKeys]
  · simp [clientRegister, h1, h2, h3, h4, h5, hd, encryptKeys, decryptKeys]

/-! ## Formatting of the claim name -/

/-- Two digits with the same character are the same digit. -/
theorem digitChar_inj : ∀ a < 10, ∀ b < 10, digitChar a = digitChar b → a = b := by
  decide

/-- No digit is written as the minus sign. -/
theorem digitChar_ne_minus (d : Nat) : digitChar d ≠ '-' := by
  have h : d % 10 < 10 := Nat.mod_lt _ (by norm_num)
  unfold digitChar
  generalize d % 10 = r at h
  revert r
  decide

/-- Two lists of digits with the same characters are the same list. -/
theorem map_digitChar_inj : ∀ (l m : List Nat), (∀ d ∈ l, d < 10) → (∀ d ∈ m, d < 10) →
    l.map digitChar = m.map digitChar → l = m
  | [], [], _, _, _ => rfl
  | [], _ :: _, _, _, h => by simp at h
  | _ :: _, [], _, _, h => by simp at h
  | a :: l, b :: m, hl, hm, h => by
      simp only [List.map_cons, List.cons.injEq] at h
      have hab := digitChar_inj a (hl a (by simp)) b (hm b (by simp)) h.1
      have := map_digitChar_inj l m (fun d hd => hl d (by simp [hd]))
        (fun d hd => hm d (by simp [hd])) h.2
      simp [hab, this]

/-- Every decimal digit is below ten. -/
theorem decimal_lt (n : Nat) : ∀ d ∈ decimal n, d < 10 := by
  intro d hd
  unfold decimal at hd
  split at hd
  · simp at hd; omega
  · simp at hd
    exact Nat.digits_lt_base (by norm_num) hd

/-- A number has at least one decimal digit. -/
theorem decimal_ne_nil (n : Nat) : decimal n ≠ [] := by
  unfold decimal
  split
  · simp
  · rename_i h
    simpa using (Nat.digits_ne_nil_iff_ne_zero.mpr h)

/-- Two numbers with the same decimal digits are equal. -/
theorem decimal_inj (n m : Nat) (h : decimal n = decimal m) : n = m := by
  unfold decimal at h
  split at h <;> split at h
  · omega
  · rename_i h0 hm
    have : Nat.digits 10 m = [0] := by
      have := congrArg List.reverse h
      simpa using this.symm
    have h2 := Nat.ofDigits_digits 10 m
    rw [this] at h2
    simp at h2
    omega
  · rename_i hn h0
    have : Nat.digits 10 n = [0] := by
      have := congrArg List.reverse h
      simpa using this
    have h2 := Nat.ofDigits_digits 10 n
    rw [this] at h2
    simp at h2
    omega
  · exact Nat.digits.injective 10 (List.reverse_injective h)

/-- The verb `%d` writes different natural numbers differently. -/
theorem formatNat_inj (n m : Nat) (h : formatNat n = formatNat m) : n = m := by
  have h2 : (decimal n).map digitChar = (decimal m).map digitChar :=
    congrArg String.data h
  exact decimal_inj n m (map_digitChar_inj _ _ (decimal_lt n) (decimal_lt m) h2)

/-- The digits of a natural number do not start with a minus sign. -/
theorem formatNat_ne_minus (n m : Nat) : formatNat n ≠ "-" ++ formatNat m := by
  intro h
  have h2 := congrArg String.data h
  simp only [String.data_append, formatNat] at h2
  rcases hd : decimal n with _ | ⟨d, ds⟩
  · exact decimal_ne_nil n hd
  · rw [hd] at h2
    simp at h2
    exact digitChar_ne_minus d h2.1

/-- The verb `%d` writes different integers differently. -/
theorem formatInt_inj (a b : Int) (h : formatInt a = formatInt b) : a = b := by
  cases a <;> cases b <;> simp only [formatInt] at h
  · rw [formatNat_inj _ _ h]
  · exact absurd h (formatNat_ne_minus _ _)
  · exact absurd h.symm (formatNat_ne_minus _ _)
  · have h2 := congrArg String.data h
    simp only [String.data_append, List.append_cancel_left_eq] at h2
    have := formatNat_inj _ _ (String.ext h2)
    simp at this
    rw [this]

/-- Two clock values with the same claim name are equal. -/
theorem claimName_inj (a b : Int) (h : claimName a = claimName b) : a = b := by
  unfold claimName at h
  have h2 := congrArg String.data h
  simp only [String.data_append, List.append_cancel_left_eq] at h2
  exact formatInt_inj a b (String.ext h2)

/-! ## The stubs -/

/-- Unpacking the characters of a packed pair gives the pair back. -/
theorem unpackChars_packField (a b : List Char) :
    unpackChars false (packField a ++ '|' :: b) = some (a, b) := by
  induction a with
  | nil => simp [packField, unpackChars]
  | cons c cs ih => simp [packField, unpackChars, ih]

/-- The inverse `unpack` undoes `pack`. -/
theorem unpack_pack (a b : String) : unpack (pack a b) = some (a, b) := by
  simp [unpack, pack, unpackChars_packField]

/-- The codec of the stubs gives back what it was given. -/
theorem stubCaps_json : JsonLaw stubCaps := by
  constructor
  · intro r
    simp [stubCaps, unpack_pack]
  · intro r
    simp [stubCaps]

/-- The sealed box of the stubs opens for its recipient, given first, when the
recipient holds its private half. -/
theorem stubCaps_recipientFirst : RecipientFirstLaw stubCaps (fun k => k.seed = true) := by
  intro s r _ hfull X c h
  by_cases hr : r.name = "" <;> by_cases hs : s.name = "" <;> by_cases hseed : s.seed = true <;>
    simp_all [publicHandle, stubCaps]
  subst h
  simp [unpack_pack]

/-- The box of the stubs does not open for a handle made of a public key: the
law fails of the stubs when stated of every key object. -/
theorem stubCaps_needs_private_half : ¬ RecipientFirstLaw stubCaps (fun _ => True) := by
  intro h
  have h2 := h { name := "UCLIENT01", seed := true } { name := "NSERVER", seed := false }
    trivial trivial "x" _ rfl
  revert h2
  decide

/-- The codec of the sender-first stubs gives back what it was given. -/
theorem senderFirstCaps_json : JsonLaw senderFirstCaps := by
  constructor
  · intro r
    simp [senderFirstCaps, stubCaps, unpack_pack]
  · intro r
    simp [senderFirstCaps, stubCaps]

/-- The name of the public handle of a key is the name of the key. -/
theorem keyName_publicHandle (s : StubKey) :
    keyName (publicHandle senderFirstCaps s) = s.name := by
  by_cases hs : s.name = "" <;> simp [publicHandle, senderFirstCaps, stubCaps, keyName, hs]

/-- The cipher of the sender-first stubs obeys the round-trip law as specified. -/
theorem senderFirstCaps_senderFirst : SenderFirstLaw senderFirstCaps := by
  intro s r X
  show (String.mk (List.drop (keyName (publicHandle senderFirstCaps s)).data.length
    ((keyName (some s)).data ++ X.data)), (none : Option Error)) = (X, none)
  rw [keyName_publicHandle s]
  simp [keyName]

/-! ## Publication before reply, and silence on failure -/

/-- C1 (publish-then-reply): whenever the registration handler sends a reply, the
resolver publication was called before it in the same run, with claim ID equal to
the request's `client_pub`, and returned no error. -/
theorem publish_then_reply (caps : Caps κ ν) (nc : ν) (serverKP operatorKP : KeyPair κ)
    (unixNano : Int) (data : Bytes) (pre post : List (Event κ ν)) (body : Bytes)
    (h : (registrationHandler caps nc serverKP operatorKP unixNano data).trace
      = pre ++ Event.respond body :: post) :
    ∃ opts, Event.publish opts none ∈ pre ∧
      opts.ClaimsID = (caps.unmarshalRequest data).1.ClientPubKey ∧
      caps.publish opts = none := by
  have hmem : Event.respond body ∈
      (registrationHandler caps nc serverKP operatorKP unixNano data).trace := by
    rw [h]; simp
  revert h hmem
  apply registrationHandler_cases (motive := fun r =>
    r.trace = pre ++ Event.respond body :: post → Event.respond body ∈ r.trace →
    ∃ opts, Event.publish opts none ∈ pre ∧
      opts.ClaimsID = (caps.unmarshalRequest data).1.ClientPubKey ∧
      caps.publish opts = none) caps nc serverKP operatorKP unixNano data
  case success =>
    intro regReq clientKP msg acc userJWT encResp h1 h2 h3 h4 h5 hop h6 h7 h _
    have hsplit := split_at_last (α := Event κ ν) (l := ([.unmarshalRequest data none,
      .fromPublicKey regReq.ClientPubKey none,
      .decrypt serverKP clientKP regReq.Payload msg none,
      .log ("Decrypted registration data: " ++ msg),
      .fromSeed (caps.getenv "COMM_ACC_SEED") (caps.fromSeed (caps.getenv "COMM_ACC_SEED")).2,
      .encode (mintUserClaim caps regReq.ClientPubKey (caps.publicKey acc).1 unixNano)
        (some acc) userJWT none,
      .publish (PublishOptions.mk userJWT regReq.ClientPubKey operatorKP nc) none,
      .encrypt clientKP serverKP userJWT encResp none] : List (Event κ ν)))
      (x := .respond (caps.marshalResponse { Encrypted := encResp }).1) h (by simp)
    refine ⟨PublishOptions.mk userJWT regReq.ClientPubKey operatorKP nc, ?_, ?_, h6⟩
    · rw [hsplit.1]; simp
    · simp [h1]
  all_goals
    intros
    rename_i hm
    simp at hm

/-- C1, on the stub request: the reply is the ninth call of the run and the
accepted publication for `UCLIENT01` is among the eight before it. -/
theorem publish_then_reply_witness :
    (registrationHandler stubCaps () stubServer stubOperator 5 stubRequest).trace
      = (registrationHandler stubCaps () stubServer stubOperator 5 stubRequest).trace.take 8
        ++ Event.respond ".U.C.L.I.E.N.T.0.1|.N.S.E.R.V.E.R|jwt.UCLIENT01" :: [] ∧
    ∃ opts, Event.publish opts none ∈
        (registrationHandler stubCaps () stubServer stubOperator 5 stubRequest).trace.take 8 ∧
      opts.ClaimsID = (stubCaps.unmarshalRequest stubRequest).1.ClientPubKey ∧
      stubCaps.publish opts = none :=
  ⟨by rfl, publish_then_reply stubCaps () stubServer stubOperator 5 stubRequest _ [] _ (by rfl)⟩

/-- C2 (fail-closed): if any of the six steps of the service returns an error in
a run of the registration handler, the run sends no reply of any kind. -/
theorem fail_closed (caps : Caps κ ν) (nc : ν) (serverKP operatorKP : KeyPair κ)
    (unixNano : Int) (data : Bytes)
    (h : (registrationHandler caps nc serverKP operatorKP unixNano data).trace.any stepFailed
      = true) :
    replies (registrationHandler caps nc serverKP operatorKP unixNano data).trace = [] := by
  revert h
  apply registrationHandler_cases (motive := fun r =>
    r.trace.any stepFailed = true → replies r.trace = [])
    caps nc serverKP operatorKP unixNano data
  all_goals
    intros
    simp_all [replies, stepFailed]

/-- C2, on a request with a tampered payload: decryption fails and the run sends
no reply. -/
theorem fail_closed_witness :
    (registrationHandler stubCaps () stubServer stubOperator 5 tamperedRequest).trace.any
      stepFailed = true ∧
    replies (registrationHandler stubCaps () stubServer stubOperator 5 tamperedRequest).trace
      = [] :=
  ⟨by decide, fail_closed stubCaps () stubServer stubOperator 5 tamperedRequest (by decide)⟩

/-! ## The issued claim and the reply -/

/-- C3: on a request that passes parsing, key resolution and decryption, every
claim the handler hands to `Encode` has the request's `client_pub` as subject, the
public key of the account key it is encoded with as issuer, the tags
`["registered"]` and the limits `Subs`, `Data`, `Payload` all `-1`; and with an
issuing account key at hand the handler encodes exactly one claim. -/
theorem issued_claim_fields (caps : Caps κ ν) (nc : ν) (serverKP operatorKP : KeyPair κ)
    (unixNano : Int) (data : Bytes) (regReq : RegistrationRequest) (clientKP : KeyPair κ)
    (msg : Bytes)
    (hsubject : ∀ s, (caps.newUserClaims s).Subject = s)
    (hparse : caps.unmarshalRequest data = (regReq, none))
    (hkey : caps.fromPublicKey regReq.ClientPubKey = (clientKP, none))
    (hdecrypt : caps.decrypt serverKP clientKP regReq.Payload = (msg, none)) :
    (∀ p ∈ encoded (registrationHandler caps nc serverKP operatorKP unixNano data).trace,
      p.1.Subject = regReq.ClientPubKey ∧
      (∃ acc, (caps.fromSeed (caps.getenv "COMM_ACC_SEED")).1 = some acc ∧ p.2 = some acc ∧
        p.1.Issuer = (caps.publicKey acc).1) ∧
      p.1.Tags = ["registered"] ∧
      p.1.Limits.Src.Subs = -1 ∧ p.1.Limits.Src.Data = -1 ∧ p.1.Limits.Src.Payload = -1) ∧
    ((caps.fromSeed (caps.getenv "COMM_ACC_SEED")).1.isSome →
      (encoded (registrationHandler caps nc serverKP operatorKP unixNano data).trace).length
        = 1) := by
  apply registrationHandler_cases (motive := fun r =>
    (∀ p ∈ encoded r.trace,
      p.1.Subject = regReq.ClientPubKey ∧
      (∃ acc, (caps.fromSeed (caps.getenv "COMM_ACC_SEED")).1 = some acc ∧ p.2 = some acc ∧
        p.1.Issuer = (caps.publicKey acc).1) ∧
      p.1.Tags = ["registered"] ∧
      p.1.Limits.Src.Subs = -1 ∧ p.1.Limits.Src.Data = -1 ∧ p.1.Limits.Src.Payload = -1) ∧
    ((caps.fromSeed (caps.getenv "COMM_ACC_SEED")).1.isSome → (encoded r.trace).length = 1))
    caps nc serverKP operatorKP unixNano data
  all_goals
    intros
    simp_all [encoded, mintUserClaim]

/-- C3, on the stub request: the one claim encoded is for `UCLIENT01`. -/
theorem issued_claim_fields_witness :
    (∀ s, (stubCaps.newUserClaims s).Subject = s) ∧
    stubCaps.unmarshalRequest stubRequest
      = ({ ClientPubKey := "UCLIENT01",
           Payload := ".N.S.E.R.V.E.R|.U.C.L.I.E.N.T.0.1|my_secret_registration_data" }, none) ∧
    (encoded (registrationHandler stubCaps () stubServer stubOperator 5 stubRequest).trace).length
      = 1 :=
  ⟨fun _ => rfl, by decide,
   (issued_claim_fields stubCaps () stubServer stubOperator 5 stubRequest
      { ClientPubKey := "UCLIENT01",
        Payload := ".N.S.E.R.V.E.R|.U.C.L.I.E.N.T.0.1|my_secret_registration_data" }
      (some { name := "UCLIENT01", seed := false }) "my_secret_registration_data"
      (fun _ => rfl) (by decide) (by decide) (by decide)).2 (by decide)⟩

/-- C4: when all six steps succeed, the handler sends exactly one reply, whose body
is the JSON encoding of the `RegistrationResponse` holding the ciphertext of the
token encoded in the same run. -/
theorem one_reply_with_encrypted_token (caps : Caps κ ν) (nc : ν)
    (serverKP operatorKP : KeyPair κ) (unixNano : Int) (data : Bytes)
    (regReq : RegistrationRequest) (clientKP : KeyPair κ) (msg : Bytes) (acc : κ)
    (userJWT : String) (encResp : Bytes)
    (hparse : caps.unmarshalRequest data = (regReq, none))
    (hkey : caps.fromPublicKey regReq.ClientPubKey = (clientKP, none))
    (hdecrypt : caps.decrypt serverKP clientKP regReq.Payload = (msg, none))
    (hseed : (caps.fromSeed (caps.getenv "COMM_ACC_SEED")).1 = some acc)
    (hencode : caps.encode
      (mintUserClaim caps regReq.ClientPubKey (caps.publicKey acc).1 unixNano) (some acc)
      = (userJWT, none))
    (hoperator : operatorKP.isSome)
    (hpublish : caps.publish (PublishOptions.mk userJWT regReq.ClientPubKey operatorKP nc)
      = none)
    (hencrypt : caps.encrypt clientKP serverKP userJWT = (encResp, none)) :
    replies (registrationHandler caps nc serverKP operatorKP unixNano data).trace
      = [(caps.marshalResponse { Encrypted := encResp }).1] ∧
    Event.encode (mintUserClaim caps regReq.ClientPubKey (caps.publicKey acc).1 unixNano)
      (some acc) userJWT none
      ∈ (registrationHandler caps nc serverKP operatorKP unixNano data).trace ∧
    Event.encrypt clientKP serverKP userJWT encResp none
      ∈ (registrationHandler caps nc serverKP operatorKP unixNano data).trace := by
  apply registrationHandler_cases (motive := fun r =>
    replies r.trace = [(caps.marshalResponse { Encrypted := encResp }).1] ∧
    Event.encode (mintUserClaim caps regReq.ClientPubKey (caps.publicKey acc).1 unixNano)
      (some acc) userJWT none ∈ r.trace ∧
    Event.encrypt clientKP serverKP userJWT encResp none ∈ r.trace)
    caps nc serverKP operatorKP unixNano data
  all_goals
    intros
    simp_all [replies]

/-- C4, on the stub request: the one reply carries the sealed token. -/
theorem one_reply_with_encrypted_token_witness :
    stubCaps.encrypt (some { name := "UCLIENT01", seed := false }) stubServer "jwt.UCLIENT01"
      = (".U.C.L.I.E.N.T.0.1|.N.S.E.R.V.E.R|jwt.UCLIENT01", none) ∧
    replies (registrationHandler stubCaps () stubServer stubOperator 5 stubRequest).trace
      = [(stubCaps.marshalResponse
          { Encrypted := ".U.C.L.I.E.N.T.0.1|.N.S.E.R.V.E.R|jwt.UCLIENT01" }).1] :=
  ⟨by decide,
   (one_reply_with_encrypted_token stubCaps () stubServer stubOperator 5 stubRequest
      { ClientPubKey := "UCLIENT01",
        Payload := ".N.S.E.R.V.E.R|.U.C.L.I.E.N.T.0.1|my_secret_registration_data" }
      (some { name := "UCLIENT01", seed := false }) "my_secret_registration_data"
      { name := "ACOMM", seed := true } "jwt.UCLIENT01"
      ".U.C.L.I.E.N.T.0.1|.N.S.E.R.V.E.R|jwt.UCLIENT01"
      (by decide) (by decide) (by decide) (by decide) (by decide) (by decide) (by decide)
      (by decide)).1⟩

/-! ## Key roles and the round trip -/

/-- C5 as specified fails: the service hands `Encrypt` the client's public key
first and its own key pair second. -/
theorem encrypt_takes_recipient_first :
    ¬ KeyRolesAsSpecified stubCaps () stubServer stubOperator 5 stubRequest
      (loopback stubCaps () stubServer stubOperator 5) Wire.idle stubClient := by
  intro h
  have h2 := h.2.1 (some { name := "UCLIENT01", seed := false }, stubServer) (by decide)
  revert h2
  decide

/-- C5, amended: both roles pass the recipient's key first and the sender's key
second, to `Decrypt` and to `Encrypt` alike. The service decrypts with (service
key pair, client public key) and encrypts the reply with (client public key,
service key pair); the client encrypts with (service public key, own key pair)
and decrypts with (own key pair, service public key). A run that replies, or that
the client completes, makes exactly one call of each. -/
theorem key_argument_order (caps : Caps κ ν) (nc : ν) (serverKP operatorKP : KeyPair κ)
    (unixNano : Int) (data : Bytes) (bus : Bus σ) (s0 : σ) (clientKP : KeyPair κ) :
    (∀ p ∈ decryptKeys (registrationHandler caps nc serverKP operatorKP unixNano data).trace,
      p = (serverKP, requester caps data)) ∧
    (∀ p ∈ encryptKeys (registrationHandler caps nc serverKP operatorKP unixNano data).trace,
      p = (requester caps data, serverKP)) ∧
    (replies (registrationHandler caps nc serverKP operatorKP unixNano data).trace ≠ [] →
      decryptKeys (registrationHandler caps nc serverKP operatorKP unixNano data).trace
        = [(serverKP, requester caps data)] ∧
      encryptKeys (registrationHandler caps nc serverKP operatorKP unixNano data).trace
        = [(requester caps data, serverKP)]) ∧
    (∀ p ∈ encryptKeys (clientRegister caps bus s0 clientKP).trace,
      p = (discovered caps bus s0, clientKP)) ∧
    (∀ p ∈ decryptKeys (clientRegister caps bus s0 clientKP).trace,
      p = (clientKP, discovered caps bus s0)) ∧
    ((clientRegister caps bus s0 clientKP).outcome = .returned →
      encryptKeys (clientRegister caps bus s0 clientKP).trace
        = [(discovered caps bus s0, clientKP)] ∧
      decryptKeys (clientRegister caps bus s0 clientKP).trace
        = [(clientKP, discovered caps bus s0)]) := by
  have hservice :
      (∀ p ∈ decryptKeys (registrationHandler caps nc serverKP operatorKP unixNano data).trace,
        p = (serverKP, requester caps data)) ∧
      (∀ p ∈ encryptKeys (registrationHandler caps nc serverKP operatorKP unixNano data).trace,
        p = (requester caps data, serverKP)) ∧
      (replies (registrationHandler caps nc serverKP operatorKP unixNano data).trace ≠ [] →
        decryptKeys (registrationHandler caps nc serverKP operatorKP unixNano data).trace
          = [(serverKP, requester caps data)] ∧
        encryptKeys (registrationHandler caps nc serverKP operatorKP unixNano data).trace
          = [(requester caps data, serverKP)]) := by
    apply registrationHandler_cases (motive := fun r =>
      (∀ p ∈ decryptKeys r.trace, p = (serverKP, requester caps data)) ∧
      (∀ p ∈ encryptKeys r.trace, p = (requester caps data, serverKP)) ∧
      (replies r.trace ≠ [] →
        decryptKeys r.trace = [(serverKP, requester caps data)] ∧
        encryptKeys r.trace = [(requester caps data, serverKP)]))
      caps nc serverKP operatorKP unixNano data
    all_goals
      intros
      simp_all [replies, decryptKeys, encryptKeys, requester]
  obtain ⟨c1, c2, c3⟩ := client_key_order caps bus s0 clientKP
  exact ⟨hservice.1, hservice.2.1, hservice.2.2, c1, c2, c3⟩

/-- C6 as specified fails: for a cipher that obeys the sender-first law, the client
completes its run against the service, yet the service did not decrypt the
client's plaintext. -/
theorem round_trip_needs_code_order :
    ¬ RoundTripAsSpecified senderFirstCaps () stubServer stubOperator stubClient 5 := by
  intro h
  have h2 := h senderFirstCaps_json senderFirstCaps_senderFirst (by decide)
  exact absurd h2.1 (by decide)

/-- C6, amended: with a JSON codec that gives back what it was given and the
round-trip law in the argument order of the code, `decrypt(recipientPriv,
senderPub, encrypt(recipientPub, senderPriv, X)) == X` for key pairs that hold
their private half, as the service's and the client's do, every run of
`clientRegister` against the service that the client completes has the service
decrypt the client's plaintext and the client decrypt the token the resolver
accepted. -/
theorem round_trip (caps : Caps κ ν) (nc : ν) (sk ck : κ) (operatorKP : KeyPair κ)
    (unixNano : Int) (full : κ → Prop) (hsk : full sk) (hck : full ck)
    (hjson : JsonLaw caps) (hlaw : RecipientFirstLaw caps full)
    (hrun : (endToEnd caps nc (some sk) operatorKP (some ck) unixNano).outcome = .returned) :
    RoundTrip (endToEnd caps nc (some sk) operatorKP (some ck) unixNano) := by
  rcases h2 : caps.encrypt (publicHandle caps sk) (some ck) registrationPayload
    with ⟨encrypted, _ | e2⟩
  swap
  · simp [publicHandle] at h2
    simp [endToEnd, clientRegister, loopback, startAuthService, h2] at hrun
  have hsent := hlaw ck sk hck hsk registrationPayload encrypted h2
  simp only [publicHandle] at h2 hsent
  have hreq := hjson.1 { ClientPubKey := (caps.publicKey ck).1, Payload := encrypted }
  rcases handler_reply_shape caps nc (some sk) operatorKP unixNano
    (caps.marshalRequest { ClientPubKey := (caps.publicKey ck).1, Payload := encrypted }).1
    with hnone | ⟨regReq, clientKP, msg, userJWT, encResp, h3, h4, h5, h6, h7, h8, h9⟩
  · simp [endToEnd, clientRegister, loopback, startAuthService, h2, hnone, Wire.idle] at hrun
  · rw [hreq] at h3
    simp only [Prod.mk.injEq, and_true] at h3
    subst h3
    simp only at h4 h5
    have hck : clientKP = (caps.fromPublicKey (caps.publicKey ck).1).1 := by rw [h4]
    subst hck
    rw [hsent] at h5
    simp only [Prod.mk.injEq, and_true] at h5
    subst h5
    have hback := hlaw sk ck hsk hck userJWT encResp (by simpa [publicHandle] using h6)
    simp only [publicHandle] at hback
    have hresp := hjson.2 { Encrypted := encResp }
    simp [RoundTrip, endToEnd, clientRegister, loopback, startAuthService, h2, Wire.idle,
      h7, h8, h9, hresp, hback, decrypted]

/-- C6 amended, on the stubs, whose box opens only with the private half of the
recipient: the law holds of the key pairs that hold their private half, the
client completes its run and the round trip holds. -/
theorem round_trip_witness :
    JsonLaw stubCaps ∧ RecipientFirstLaw stubCaps (fun k => k.seed = true) ∧
    (endToEnd stubCaps () (some { name := "NSERVER", seed := true }) stubOperator
      (some { name := "UCLIENT01", seed := true }) 5).outcome = .returned ∧
    RoundTrip (endToEnd stubCaps () (some { name := "NSERVER", seed := true }) stubOperator
      (some { name := "UCLIENT01", seed := true }) 5) :=
  ⟨stubCaps_json, stubCaps_recipientFirst, by decide,
   round_trip stubCaps () { name := "NSERVER", seed := true }
     { name := "UCLIENT01", seed := true } stubOperator 5 (fun k => k.seed = true) rfl rfl
     stubCaps_json stubCaps_recipientFirst (by decide)⟩

/-! ## Re-registration and the issuing-account seed -/

/-- C7 as specified fails: two registrations of one client key that read the same
clock value both succeed and give their claims the same name. -/
theorem same_instant_same_name :
    ¬ DistinctNamesAlways stubCaps () stubServer stubOperator := by
  intro h
  have hmem : (mintUserClaim stubCaps "UCLIENT01" "ACOMM" 5,
      (some { name := "ACOMM", seed := true } : KeyPair StubKey))
      ∈ encoded (registrationHandler stubCaps () stubServer stubOperator 5 stubRequest).trace :=
    List.mem_singleton.mpr rfl
  exact h 5 5 stubRequest stubRequest rfl (by decide) (by decide) _ hmem _ hmem rfl

/-- C7, amended: two runs of the handler that reply, on requests carrying the same
`client_pub` `P`, each encode one claim, both with subject `P`, named `client-`
followed by the clock value of the run; the two names differ exactly when the two
clock values differ, and the resolver accepts the token of either run. -/
theorem reregistration (caps : Caps κ ν) (nc : ν) (serverKP operatorKP : KeyPair κ)
    (t1 t2 : Int) (d1 d2 : Bytes) (P : String)
    (hsubject : ∀ s, (caps.newUserClaims s).Subject = s)
    (hP1 : (caps.unmarshalRequest d1).1.ClientPubKey = P)
    (hP2 : (caps.unmarshalRequest d2).1.ClientPubKey = P)
    (hr1 : replies (registrationHandler caps nc serverKP operatorKP t1 d1).trace ≠ [])
    (hr2 : replies (registrationHandler caps nc serverKP operatorKP t2 d2).trace ≠ []) :
    ∃ c1 k1 c2 k2,
      encoded (registrationHandler caps nc serverKP operatorKP t1 d1).trace = [(c1, k1)] ∧
      encoded (registrationHandler caps nc serverKP operatorKP t2 d2).trace = [(c2, k2)] ∧
      c1.Subject = P ∧ c2.Subject = P ∧
      c1.Name = "client-" ++ formatInt t1 ∧ c2.Name = "client-" ++ formatInt t2 ∧
      (c1.Name ≠ c2.Name ↔ t1 ≠ t2) ∧
      (publishedTokens (registrationHandler caps nc serverKP operatorKP t1 d1).trace).length
        = 1 ∧
      (publishedTokens (registrationHandler caps nc serverKP operatorKP t2 d2).trace).length
        = 1 := by
  have key : ∀ (t : Int) (d : Bytes),
      (caps.unmarshalRequest d).1.ClientPubKey = P →
      replies (registrationHandler caps nc serverKP operatorKP t d).trace ≠ [] →
      ∃ c k, encoded (registrationHandler caps nc serverKP operatorKP t d).trace = [(c, k)] ∧
        c.Subject = P ∧ c.Name = claimName t ∧
        (publishedTokens (registrationHandler caps nc serverKP operatorKP t d).trace).length
          = 1 := by
    intro t d
    apply registrationHandler_cases (motive := fun r =>
      (caps.unmarshalRequest d).1.ClientPubKey = P → replies r.trace ≠ [] →
      ∃ c k, encoded r.trace = [(c, k)] ∧ c.Subject = P ∧ c.Name = claimName t ∧
        (publishedTokens r.trace).length = 1)
      caps nc serverKP operatorKP t d
    all_goals
      intros
      simp_all [replies, encoded, mintUserClaim, publishedTokens]
  obtain ⟨c1, k1, e1, s1, n1, p1⟩ := key t1 d1 hP1 hr1
  obtain ⟨c2, k2, e2, s2, n2, p2⟩ := key t2 d2 hP2 hr2
  refine ⟨c1, k1, c2, k2, e1, e2, s1, s2, n1, n2, ?_, p1, p2⟩
  rw [n1, n2]
  exact not_congr ⟨claimName_inj t1 t2, fun h => by rw [h]⟩

/-- C7 amended, on two registrations of `UCLIENT01` at clock values 5 and 6. -/
theorem reregistration_witness :
    replies (registrationHandler stubCaps () stubServer stubOperator 5 stubRequest).trace ≠ [] ∧
    replies (registrationHandler stubCaps () stubServer stubOperator 6 stubRequest).trace ≠ [] ∧
    ∃ c1 k1 c2 k2,
      encoded (registrationHandler stubCaps () stubServer stubOperator 5 stubRequest).trace
        = [(c1, k1)] ∧
      encoded (registrationHandler stubCaps () stubServer stubOperator 6 stubRequest).trace
        = [(c2, k2)] ∧
      c1.Subject = "UCLIENT01" ∧ c2.Subject = "UCLIENT01" ∧
      c1.Name = "client-" ++ formatInt 5 ∧ c2.Name = "client-" ++ formatInt 6 ∧
      (c1.Name ≠ c2.Name ↔ (5 : Int) ≠ 6) ∧
      (publishedTokens
        (registrationHandler stubCaps () stubServer stubOperator 5 stubRequest).trace).length
        = 1 ∧
      (publishedTokens
        (registrationHandler stubCaps () stubServer stubOperator 6 stubRequest).trace).length
        = 1 :=
  ⟨by decide, by decide,
   reregistration stubCaps () stubServer stubOperator 5 6 stubRequest stubRequest "UCLIENT01"
     (fun _ => rfl) (by decide) (by decide) (by decide) (by decide)⟩

/-- C8 as specified fails: with `COMM_ACC_SEED` unset the service starts all the
same, and its endpoint parses and decrypts the request it is given and only
then reads the seed. -/
theorem unset_seed_service_runs :
    ¬ SeedGatesService unsetCaps () stubServer stubOperator := by
  intro h
  have h2 := (h (by decide) _ rfl 5 stubRequest).2 "" (some "nkeys: invalid encoded key")
  revert h2
  decide

/-- C8, amended: `startAuthService` does not look at the issuing-account seed, so
the service starts whatever `COMM_ACC_SEED` holds and its handler parses every
request. The seed is read in the handler, in every run whose request passed
parsing, key resolution and decryption and in no other, as the call after the
decryption; when it yields no key pair that read is the last call of the run,
so that no run of the handler encodes, publishes or replies with a claim. -/
theorem seed_read_in_handler (caps : Caps κ ν) (nc : ν) (sk : κ) (operatorKP : KeyPair κ)
    (hnil : (caps.fromSeed (caps.getenv "COMM_ACC_SEED")).1 = none) :
    (∃ svc, startAuthService caps nc (some sk) operatorKP = some svc ∧
      svc.endpoint = registrationHandler caps nc (some sk) operatorKP) ∧
    ∀ (unixNano : Int) (data : Bytes),
      (registrationHandler caps nc (some sk) operatorKP unixNano data).trace.head?
        = some (.unmarshalRequest data (caps.unmarshalRequest data).2) ∧
      (∀ regReq clientKP msg,
        caps.unmarshalRequest data = (regReq, none) →
        caps.fromPublicKey regReq.ClientPubKey = (clientKP, none) →
        caps.decrypt (some sk) clientKP regReq.Payload = (msg, none) →
        (registrationHandler caps nc (some sk) operatorKP unixNano data).trace
          = [.unmarshalRequest data none,
             .fromPublicKey regReq.ClientPubKey none,
             .decrypt (some sk) clientKP regReq.Payload msg none,
             .log ("Decrypted registration data: " ++ msg),
             .fromSeed (caps.getenv "COMM_ACC_SEED")
               (caps.fromSeed (caps.getenv "COMM_ACC_SEED")).2]) ∧
      (∀ seed err,
        Event.fromSeed seed err
          ∈ (registrationHandler caps nc (some sk) operatorKP unixNano data).trace →
        seed = caps.getenv "COMM_ACC_SEED" ∧
        decrypted (registrationHandler caps nc (some sk) operatorKP unixNano data).trace
          ≠ []) ∧
      encoded (registrationHandler caps nc (some sk) operatorKP unixNano data).trace = [] ∧
      publications (registrationHandler caps nc (some sk) operatorKP unixNano data).trace = [] ∧
      replies (registrationHandler caps nc (some sk) operatorKP unixNano data).trace = [] := by
  refine ⟨⟨_, rfl, rfl⟩, ?_⟩
  intro unixNano data
  apply registrationHandler_cases (motive := fun r =>
    r.trace.head? = some (.unmarshalRequest data (caps.unmarshalRequest data).2) ∧
    (∀ regReq clientKP msg,
      caps.unmarshalRequest data = (regReq, none) →
      caps.fromPublicKey regReq.ClientPubKey = (clientKP, none) →
      caps.decrypt (some sk) clientKP regReq.Payload = (msg, none) →
      r.trace
        = [.unmarshalRequest data none,
           .fromPublicKey regReq.ClientPubKey none,
           .decrypt (some sk) clientKP regReq.Payload msg none,
           .log ("Decrypted registration data: " ++ msg),
           .fromSeed (caps.getenv "COMM_ACC_SEED")
             (caps.fromSeed (caps.getenv "COMM_ACC_SEED")).2]) ∧
    (∀ seed err, Event.fromSeed seed err ∈ r.trace →
      seed = caps.getenv "COMM_ACC_SEED" ∧ decrypted r.trace ≠ []) ∧
    encoded r.trace = [] ∧ publications r.trace = [] ∧ replies r.trace = [])
    caps nc (some sk) operatorKP unixNano data
  all_goals
    intros
    simp_all [replies, encoded, publications, decrypted]
    try
      intro regReq clientKP msg hreq hkey hdecrypt
      subst hreq
      simp_all

/-- C8 amended, in the environment where `COMM_ACC_SEED` is not set: on the stub
request the handler decrypts the payload, reads the seed and makes no call after. -/
theorem seed_read_in_handler_witness :
    (unsetCaps.fromSeed (unsetCaps.getenv "COMM_ACC_SEED")).1 = none ∧
    (registrationHandler unsetCaps () (some { name := "NSERVER", seed := true })
      stubOperator 5 stubRequest).trace
      = [.unmarshalRequest stubRequest none,
         .fromPublicKey "UCLIENT01" none,
         .decrypt (some { name := "NSERVER", seed := true })
           (some { name := "UCLIENT01", seed := false })
           ".N.S.E.R.V.E.R|.U.C.L.I.E.N.T.0.1|my_secret_registration_data"
           "my_secret_registration_data" none,
         .log ("Decrypted registration data: " ++ "my_secret_registration_data"),
         .fromSeed (unsetCaps.getenv "COMM_ACC_SEED")
           (unsetCaps.fromSeed (unsetCaps.getenv "COMM_ACC_SEED")).2] ∧
    replies (registrationHandler unsetCaps () (some { name := "NSERVER", seed := true })
      stubOperator 5 stubRequest).trace = [] :=
  ⟨by decide,
   ((seed_read_in_handler unsetCaps () { name := "NSERVER", seed := true } stubOperator
      (by decide)).2 5 stubRequest).2.1
      { ClientPubKey := "UCLIENT01",
        Payload := ".N.S.E.R.V.E.R|.U.C.L.I.E.N.T.0.1|my_secret_registration_data" }
      (some { name := "UCLIENT01", seed := false }) "my_secret_registration_data"
      (by decide) (by decide) (by decide),
   ((seed_read_in_handler unsetCaps () { name := "NSERVER", seed := true } stubOperator
      (by decide)).2 5 stubRequest).2.2.2.2.2⟩

/-! ## Failures of the client, and publication only after issuance -/

/-- C9 fails on a transport that rejects the send: `clientRegister` drops the error
of `PublishRequest`, goes on to wait for the response, and ends with the failure
of the wait. -/
theorem send_error_is_dropped :
    (clientRegister stubCaps rejectingBus () stubClient).trace.drop 4
      = [.publishRequest "auth.register" "_INBOX.client"
           ".U.C.L.I.E.N.T.0.1|.N.S.E.R.V.E.R|.U.C.L.I.E.N.T.0.1|my_secret_registration_data"
           (some "nats: connection closed"),
         .nextMsg "_INBOX.client" 2000000000 (some "nats: timeout")] ∧
    (clientRegister stubCaps rejectingBus () stubClient).outcome
      = .fatal "No response: nats: timeout" := by
  decide

/-- C10: if parsing, key resolution, decryption or claim encoding returns an error
in a run of the registration handler, the run never calls the resolver publication. -/
theorem no_publication_unless_issued (caps : Caps κ ν) (nc : ν)
    (serverKP operatorKP : KeyPair κ) (unixNano : Int) (data : Bytes)
    (h : (registrationHandler caps nc serverKP operatorKP unixNano data).trace.any
      issuanceFailed = true) :
    publications (registrationHandler caps nc serverKP operatorKP unixNano data).trace = [] := by
  revert h
  apply registrationHandler_cases (motive := fun r =>
    r.trace.any issuanceFailed = true → publications r.trace = [])
    caps nc serverKP operatorKP unixNano data
  all_goals
    intros
    simp_all [publications, issuanceFailed]

/-- C10, on a request whose `client_pub` is no public key: key resolution fails
and the resolver publication is not called. -/
theorem no_publication_unless_issued_witness :
    (registrationHandler stubCaps () stubServer stubOperator 5 invalidKeyRequest).trace.any
      issuanceFailed = true ∧
    publications
      (registrationHandler stubCaps () stubServer stubOperator 5 invalidKeyRequest).trace = [] :=
  ⟨by decide,
   no_publication_unless_issued stubCaps () stubServer stubOperator 5 invalidKeyRequest
     (by decide)⟩

end NatsAuth
